import Mathlib

/-!
Shallow embedding, in Lean, of the core of the screenshot_tool repository:
the error taxonomy and circuit breaker (src/error.rs), the dispatcher's retry
loop and request ordering (src/screenshot_service.rs), the browser pool's
lease protocol (src/browser_pool.rs), and the utility components
(src/utils.rs, src/cli.rs).

Modelling conventions:
 - machine integers (usize, u8, u32) are Nat;
 - time instants and durations are Nat (Instant::elapsed at instant `now` for
   a timestamp `t` is `now - t`);
 - external I/O (the Chrome browser, CDP, the url crate's parser) is modelled
   by explicit oracles or by small executable models documented at the
   definition;
 - stateful Rust code becomes explicit state passing; fallible code returns
   Except / Option; async interleavings are modelled by a sequential
   linearization of the operations.
-/

namespace ScreenshotTool

/-- Output image formats, from src/config.rs `OutputFormat`. -/
inductive OutputFormat
  | Png
  | Jpeg
  | Webp
deriving DecidableEq

/-- Request priorities, from src/config.rs `Priority`. -/
inductive Priority
  | Low
  | Normal
  | High
  | Critical
deriving DecidableEq

/-- Circuit-breaker states, from src/error.rs `CircuitState`. -/
inductive CircuitState
  | Closed
  | Open
  | HalfOpen
deriving DecidableEq

/-- Browser-instance status, from src/browser_pool.rs `InstanceStatus`. -/
inductive InstanceStatus
  | Healthy
  | Busy
  | Unresponsive
  | Restarting
  | Failed
deriving DecidableEq

/-- Memory status, from src/utils.rs `MemoryStatus`. -/
inductive MemoryStatus
  | Normal
  | Warning
  | Critical
deriving DecidableEq

/-- The error taxonomy, from src/error.rs `ScreenshotError`. The Timeout
payload (a Duration in the source) is a Nat. -/
inductive ScreenshotError
  | BrowserUnavailable
  | UrlLoadFailed (msg : String)
  | CaptureFailed (msg : String)
  | Timeout (d : Nat)
  | NetworkError (msg : String)
  | InvalidUrl (url : String)
  | BrowserLaunchFailed (msg : String)
  | BrowserProcessDied (msg : String)
  | MemoryLimitExceeded
  | ConfigurationError (msg : String)
  | IoError (msg : String)
  | SerializationError (msg : String)
  | ChromeError (msg : String)
  | PageError (msg : String)
  | ElementNotFound (msg : String)
  | ResourceBlockingError (msg : String)
  | SemaphoreError (msg : String)
deriving DecidableEq

/-- src/error.rs `ScreenshotError::is_retryable`: exactly the six listed
variants are retryable. -/
def ScreenshotError.is_retryable : ScreenshotError → Bool
  | .BrowserUnavailable => true
  | .UrlLoadFailed _ => true
  | .NetworkError _ => true
  | .Timeout _ => true
  | .PageError _ => true
  | .BrowserProcessDied _ => true
  | _ => false

/-- src/error.rs `CircuitBreaker`. The atomic counter and mutex-protected
fields become plain fields of a value threaded through the operations. -/
structure CircuitBreaker where
  state : CircuitState
  failure_threshold : Nat
  recovery_timeout : Nat
  failure_count : Nat
  last_failure_time : Option Nat
deriving DecidableEq

/-- src/error.rs `CircuitBreaker::new`. -/
def CircuitBreaker.new (failure_threshold recovery_timeout : Nat) : CircuitBreaker :=
  { state := .Closed
    failure_threshold
    recovery_timeout
    failure_count := 0
    last_failure_time := none }

/-- src/error.rs `CircuitBreaker::can_execute`, read at instant `now`:
Closed and HalfOpen return true unchanged; Open returns true and moves to
HalfOpen when `last_failure.elapsed() > recovery_timeout`, else false. -/
def CircuitBreaker.can_execute (cb : CircuitBreaker) (now : Nat) : Bool × CircuitBreaker :=
  match cb.state with
  | .Closed => (true, cb)
  | .Open =>
    match cb.last_failure_time with
    | some t =>
      if cb.recovery_timeout < now - t then (true, { cb with state := .HalfOpen })
      else (false, cb)
    | none => (false, cb)
  | .HalfOpen => (true, cb)

/-- src/error.rs `CircuitBreaker::record_success`. -/
def CircuitBreaker.record_success (cb : CircuitBreaker) : CircuitBreaker :=
  { cb with failure_count := 0, state := .Closed, last_failure_time := none }

/-- src/error.rs `CircuitBreaker::record_failure`, at instant `now`: increments
the counter, stamps the failure time, and opens the breaker when the new count
reaches the threshold. -/
def CircuitBreaker.record_failure (cb : CircuitBreaker) (now : Nat) : CircuitBreaker :=
  let failures := cb.failure_count + 1
  { cb with
      failure_count := failures
      last_failure_time := some now
      state := if cb.failure_threshold ≤ failures then .Open else cb.state }

/-- Breaker values reachable from `CircuitBreaker.new F D` through the three
public operations, at arbitrary instants. -/
inductive CircuitBreaker.Reachable (F D : Nat) : CircuitBreaker → Prop
  | new : CircuitBreaker.Reachable F D (CircuitBreaker.new F D)
  | can_execute (t : Nat) {cb : CircuitBreaker} :
      CircuitBreaker.Reachable F D cb → CircuitBreaker.Reachable F D (cb.can_execute t).2
  | record_success {cb : CircuitBreaker} :
      CircuitBreaker.Reachable F D cb → CircuitBreaker.Reachable F D cb.record_success
  | record_failure (t : Nat) {cb : CircuitBreaker} :
      CircuitBreaker.Reachable F D cb → CircuitBreaker.Reachable F D (cb.record_failure t)

/-- src/config.rs `Viewport`. `device_scale_factor` is an f64 in the source;
inside the verified scope it is only ever copied, never computed with, so it
is carried as an opaque numeric code. -/
structure Viewport where
  width : Nat
  height : Nat
  device_scale_factor : Nat
  mobile : Bool
deriving DecidableEq

/-- src/config.rs `ScreenshotMetadata`. -/
structure ScreenshotMetadata where
  viewport : Viewport
  page_title : Option String
  final_url : Option String
  response_status : Option Nat
  file_size : Nat
  browser_instance_id : Nat
deriving DecidableEq

/-- src/config.rs `ScreenshotRequest`. Durations are Nat. -/
structure ScreenshotRequest where
  id : String
  url : String
  priority : Priority
  custom_viewport : Option Viewport
  wait_time : Option Nat
  element_selector : Option String
  full_page : Bool
  retry_count : Nat
deriving DecidableEq

/-- src/config.rs `ScreenshotResult`. Image bytes are a list of Nat;
the SystemTime timestamp is a Nat. -/
structure ScreenshotResult where
  request_id : String
  url : String
  data : List Nat
  format : OutputFormat
  timestamp : Nat
  duration : Nat
  success : Bool
  error : Option ScreenshotError
  metadata : ScreenshotMetadata
deriving DecidableEq

/-- src/config.rs `RetryConfig`. `multiplier` is an f64 in the source, used
only to scale backoff sleeps, which the model renders through the per-attempt
instant oracle; it is carried as an opaque numeric code. -/
structure RetryConfig where
  max_attempts : Nat
  initial_delay : Nat
  max_delay : Nat
  multiplier : Nat
deriving DecidableEq

/-- src/config.rs `OptimizationSettings`. -/
structure OptimizationSettings where
  block_ads : Bool
  block_trackers : Bool
  block_images : Bool
  enable_javascript : Bool
  wait_for_network_idle : Bool
  disable_css : Bool
  disable_plugins : Bool
deriving DecidableEq

/-- src/config.rs `Config` (the fields the verified components read). -/
structure Config where
  browser_pool_size : Nat
  max_concurrent_screenshots : Nat
  screenshot_timeout : Nat
  retry_attempts : Nat
  output_format : OutputFormat
  viewport : Viewport
  optimization : OptimizationSettings
  chrome_path : Option String
  user_agent : Option String
  memory_limit : Option Nat
deriving DecidableEq

/-- Outcome of one `take_screenshot` call (src/screenshot_service.rs).
The capture pipeline drives the browser pool and CDP, which are external
I/O; the retry loop observes only the call's outcome, so the pipeline is an
oracle giving each attempt's outcome. -/
inductive CaptureOutcome
  | ok (res : ScreenshotResult)
  | err (e : ScreenshotError)
deriving DecidableEq

/-- The Result built after the retry loop exhausts,
src/screenshot_service.rs lines 146-163: success=false, empty data,
configured format, zero duration, the last error seen, metadata with the
configured viewport and browser_instance_id 0. The SystemTime::now()
timestamp is irrelevant to the claims and modelled as 0. -/
def failedResult (config : Config) (request : ScreenshotRequest)
    (last_error : Option ScreenshotError) : ScreenshotResult :=
  { request_id := request.id
    url := request.url
    data := []
    format := config.output_format
    timestamp := 0
    duration := 0
    success := false
    error := last_error
    metadata :=
      { viewport := config.viewport
        page_title := none
        final_url := none
        response_status := none
        file_size := 0
        browser_instance_id := 0 } }

/-- The loop of src/screenshot_service.rs `take_screenshot_with_retry`
(`for attempt in 0..max_attempts`), as a fuel recursion with
`fuel = max_attempts - attempt`, so the loop's last iteration
(`attempt == max_attempts - 1`) is `fuel = 0` inside the `fuel + 1` case.
`outcomes i` is the outcome of the `take_screenshot` call of attempt `i`
(that call sees `request.retry_count = i`); `times i` is the instant at
which attempt `i` runs (the backoff sleep between attempts only advances
this clock). Returns the function's result, the final breaker state, and
how many `take_screenshot` calls were made. -/
def retryLoop (config : Config) (request : ScreenshotRequest)
    (outcomes : Nat → CaptureOutcome) (times : Nat → Nat) :
    Nat → Nat → CircuitBreaker → Option ScreenshotError →
      Except ScreenshotError ScreenshotResult × CircuitBreaker × Nat
  | 0, _, cb, last_error => (.ok (failedResult config request last_error), cb, 0)
  | fuel + 1, attempt, cb, _ =>
    match cb.can_execute (times attempt) with
    | (false, cb1) => (.error .BrowserUnavailable, cb1, 0)
    | (true, cb1) =>
      match outcomes attempt with
      | .ok res => (.ok { res with success := true }, cb1.record_success, 1)
      | .err e =>
        let cb2 := cb1.record_failure (times attempt)
        if e.is_retryable ∧ fuel ≠ 0 then
          match retryLoop config request outcomes times fuel (attempt + 1) cb2 (some e) with
          | (r, cb3, n) => (r, cb3, n + 1)
        else
          (.ok (failedResult config request (some e)), cb2, 1)

/-- src/screenshot_service.rs `take_screenshot_with_retry`. -/
def take_screenshot_with_retry (config : Config) (retry : RetryConfig)
    (request : ScreenshotRequest) (outcomes : Nat → CaptureOutcome)
    (times : Nat → Nat) (cb : CircuitBreaker) :
    Except ScreenshotError ScreenshotResult × CircuitBreaker × Nat :=
  retryLoop config request outcomes times retry.max_attempts 0 cb none

/-- src/screenshot_service.rs `priority_to_value`. -/
def priority_to_value : Priority → Nat
  | .Low => 0
  | .Normal => 1
  | .High => 2
  | .Critical => 3

/-- Stable insertion into a list already ordered by descending
`priority_to_value`: the new element goes before the first element whose
value is at most its own, hence after every earlier-submitted element of
equal or higher priority. -/
def insertByPriority (r : ScreenshotRequest) :
    List ScreenshotRequest → List ScreenshotRequest
  | [] => [r]
  | x :: xs =>
    if priority_to_value x.priority ≤ priority_to_value r.priority then r :: x :: xs
    else x :: insertByPriority r xs

/-- src/screenshot_service.rs lines 92-93:
`sorted_requests.sort_by(|a, b| pv(b.priority).cmp(&pv(a.priority)))`.
Rust's `sort_by` is a stable sort, and a stable sort's output is unique,
so it is embedded as stable insertion sort under the same order. -/
def sortRequests (requests : List ScreenshotRequest) : List ScreenshotRequest :=
  requests.foldr insertByPriority []

/-- The per-request tasks spawned by `process_requests`, linearized: the
k-th sorted request's capture attempts are drawn from oracle `oracles k` at
instants `times k`, and the shared circuit breaker is threaded through in
that order. `try_join_all` preserves task order, so results come back in
sorted order. -/
def runRequests (config : Config) (retry : RetryConfig)
    (oracles : Nat → Nat → CaptureOutcome) (times : Nat → Nat → Nat) :
    List ScreenshotRequest → Nat → CircuitBreaker →
      List (Except ScreenshotError ScreenshotResult) × CircuitBreaker
  | [], _, cb => ([], cb)
  | req :: rest, k, cb =>
    match take_screenshot_with_retry config retry req (oracles k) (times k) cb with
    | (r, cb1, _) =>
      match runRequests config retry oracles times rest (k + 1) cb1 with
      | (rs, cb2) => (r :: rs, cb2)

/-- The final `results.into_iter().collect::<Result<Vec<_>, _>>()` of
`process_requests`: all results when every task returned Ok, else the first
Err. -/
def collectResults : List (Except ScreenshotError ScreenshotResult) →
    Except ScreenshotError (List ScreenshotResult)
  | [] => .ok []
  | .error e :: _ => .error e
  | .ok r :: rest =>
    match collectResults rest with
    | .ok rs => .ok (r :: rs)
    | .error e => .error e

/-- src/screenshot_service.rs `process_requests`: sort by priority, run every
request's retry loop, then collect the `Result`s (so one task's `Err` is
propagated as the whole call's `Err`). -/
def process_requests (config : Config) (retry : RetryConfig)
    (oracles : Nat → Nat → CaptureOutcome) (times : Nat → Nat → Nat)
    (requests : List ScreenshotRequest) (cb : CircuitBreaker) :
    Except ScreenshotError (List ScreenshotResult) × CircuitBreaker :=
  match runRequests config retry oracles times (sortRequests requests) 0 cb with
  | (outs, cb1) => (collectResults outs, cb1)

/-- The spec's claim on `process_requests` as stated: for every input it
returns Ok with exactly one Result per request (terminal failures packaged
as Results, never surfaced as a thrown error). -/
def claimC2Statement : Prop :=
  ∀ (config : Config) (retry : RetryConfig)
    (oracles : Nat → Nat → CaptureOutcome) (times : Nat → Nat → Nat)
    (requests : List ScreenshotRequest) (cb : CircuitBreaker),
    ∃ rs, (process_requests config retry oracles times requests cb).1 = .ok rs ∧
      rs.length = requests.length

/-- First-character class of a URL scheme (RFC 3986, as enforced by the url
crate's Url::parse): an ASCII letter. Model of external-crate behavior. -/
def schemeHeadOk (c : Char) : Bool := c.isAlpha

/-- Subsequent-character class of a URL scheme. -/
def schemeTailOk (c : Char) : Bool :=
  c.isAlpha || c.isDigit || c = '+' || c = '-' || c = '.'

/-- Scheme validity for the url crate's parser. -/
def validScheme : List Char → Bool
  | [] => false
  | c :: rest => schemeHeadOk c && rest.all schemeTailOk

/-- Split a string at its first colon into (scheme, rest); none when there is
no colon (a relative URL, which Url::parse without a base rejects). -/
def splitScheme : List Char → Option (List Char × List Char)
  | [] => none
  | c :: rest =>
    if c = ':' then some ([], rest)
    else
      match splitScheme rest with
      | some (sch, r) => some (c :: sch, r)
      | none => none

/-- Model of url::Url::parse applied to an absolute URL string: succeeds with
the (scheme, remainder) split exactly when a valid scheme is followed by a
colon. Model of external-crate behavior, faithful on the URLs considered
here. -/
def urlParse (s : String) : Option (String × String) :=
  match splitScheme s.data with
  | some (sch, rest) => if validScheme sch then some (⟨sch⟩, ⟨rest⟩) else none
  | none => none

/-- src/screenshot_service.rs `is_valid_url`: `url::Url::parse(url).is_ok()`.
Note: no restriction on the scheme. -/
def is_valid_url (url : String) : Bool := (urlParse url).isSome

/-- src/utils.rs `validate_url`: parse, then require scheme http or https.
True exactly when the source returns Ok. -/
def validate_url_ok (url : String) : Bool :=
  match urlParse url with
  | some (sch, _) => sch = "http" || sch = "https"
  | none => false

/-- The URL gate at the top of src/screenshot_service.rs `take_screenshot`
(lines 166-175): Err(InvalidUrl) before touching the pool when
`is_valid_url` is false; `.ok ()` means control proceeds to
`browser_pool.get_browser()`, i.e. browser interaction begins. -/
def take_screenshot_url_gate (url : String) : Except ScreenshotError Unit :=
  if is_valid_url url then .ok () else .error (.InvalidUrl url)

/-- src/browser_pool.rs `BrowserInstance` (the browser and handler handles
are external processes; `handler_finished` models `handler.is_finished()`). -/
structure BrowserInstanceM where
  id : Nat
  last_used : Nat
  screenshot_count : Nat
  status : InstanceStatus
  created_at : Nat
  failure_count : Nat
  handler_finished : Bool
deriving DecidableEq

/-- src/browser_pool.rs `BrowserInstance::new` at instant `now`. -/
def BrowserInstanceM.new (id : Nat) (now : Nat) : BrowserInstanceM :=
  { id
    last_used := now
    screenshot_count := 0
    status := .Healthy
    created_at := now
    failure_count := 0
    handler_finished := false }

/-- src/browser_pool.rs `BrowserInstance::mark_used` at instant `now`. -/
def BrowserInstanceM.mark_used (inst : BrowserInstanceM) (now : Nat) : BrowserInstanceM :=
  { inst with
      last_used := now
      screenshot_count := inst.screenshot_count + 1
      status := .Busy }

/-- src/browser_pool.rs `BrowserInstance::mark_available`. -/
def BrowserInstanceM.mark_available (inst : BrowserInstanceM) : BrowserInstanceM :=
  { inst with status := .Healthy }

/-- src/browser_pool.rs `BrowserInstance::is_healthy`. -/
def BrowserInstanceM.is_healthy (inst : BrowserInstanceM) : Bool :=
  inst.status = .Healthy

/-- src/browser_pool.rs `BrowserPool` state: the instance vector (indexed by
instance id), the FIFO available-queue (head = front), the pool-capacity
semaphore's available permits, and the shutdown flag. -/
structure PoolState where
  instances : List BrowserInstanceM
  available : List Nat
  permits : Nat
  shutting_down : Bool
deriving DecidableEq

/-- Result of a `get_browser` call: `blocked` when `semaphore.acquire()`
would suspend (no permit available), otherwise the function's
`Result<BrowserHandle, _>` with the handle reduced to its instance id. -/
inductive GetBrowserOutcome
  | blocked
  | failed (e : ScreenshotError)
  | leased (instance_id : Nat)
deriving DecidableEq

/-- The `for attempt in 0..3` retry loop inside src/browser_pool.rs
`get_browser` (lines 248-298), with `fuel = 3 - attempt`. Popping an empty
available-queue or missing the instance index propagates Err out of the
whole function (the `?` on `ok_or`). An unhealthy instance is restarted in
place: on success the slot is replaced by a fresh instance
(`restart_instance_internal`, which resets its counters) and then marked
used; on failure the id is pushed back to the tail and, before the last
attempt, the loop continues. The source's in-place restart re-locks the
instances mutex it already holds; the sequential model ignores lock
re-entrancy. `restart_ok attempt` is the restart oracle. -/
def getBrowserLoop (restart_ok : Nat → Bool) (now : Nat) :
    Nat → PoolState → Except ScreenshotError Nat × PoolState
  | 0, st => (.error .BrowserUnavailable, st)
  | fuel + 1, st =>
    match st.available with
    | [] => (.error .BrowserUnavailable, st)
    | instance_id :: avail_rest =>
      let st1 := { st with available := avail_rest }
      match st1.instances[instance_id]? with
      | none => (.error .BrowserUnavailable, st1)
      | some inst =>
        if inst.is_healthy && !inst.handler_finished then
          (.ok instance_id,
           { st1 with instances := st1.instances.set instance_id (inst.mark_used now) })
        else
          if restart_ok (2 - fuel) then
            (.ok instance_id,
             { st1 with
                 instances :=
                   st1.instances.set instance_id
                     ((BrowserInstanceM.new instance_id now).mark_used now) })
          else
            let st2 := { st1 with available := st1.available ++ [instance_id] }
            if fuel = 0 then (.error (.BrowserLaunchFailed "restart failed"), st2)
            else getBrowserLoop restart_ok now fuel st2

/-- src/browser_pool.rs `get_browser` (lines 238-301). Fails fast when
shutting down; `semaphore.acquire()` takes one permit (blocking when none is
available); then the 3-attempt loop runs. The `_permit` guard is a local of
`get_browser`, so Rust drops it when the function returns — on the success
and the error path alike — which is where the permit goes back; the returned
`BrowserHandle` does not carry it. -/
def get_browser (restart_ok : Nat → Bool) (now : Nat) (st : PoolState) :
    GetBrowserOutcome × PoolState :=
  if st.shutting_down then (.failed .BrowserUnavailable, st)
  else if st.permits = 0 then (.blocked, st)
  else
    match getBrowserLoop restart_ok now 3 { st with permits := st.permits - 1 } with
    | (r, st2) =>
      let st3 := { st2 with permits := st2.permits + 1 }
      match r with
      | .ok instance_id => (.leased instance_id, st3)
      | .error e => (.failed e, st3)

/-- src/browser_pool.rs `return_browser`, the body that `Drop for
BrowserHandle` spawns: mark the instance Healthy and push its id to the tail
of the available-queue. It does not touch the semaphore. -/
def return_browser (st : PoolState) (instance_id : Nat) : PoolState :=
  match st.instances[instance_id]? with
  | some inst =>
    { st with
        instances := st.instances.set instance_id inst.mark_available
        available := st.available ++ [instance_id] }
  | none => st

/-- src/browser_pool.rs `BrowserPoolStats`. -/
structure BrowserPoolStats where
  total_instances : Nat
  healthy_instances : Nat
  busy_instances : Nat
  failed_instances : Nat
  available_instances : Nat
  total_screenshots : Nat
deriving DecidableEq

/-- src/browser_pool.rs `get_stats`. -/
def get_stats (st : PoolState) : BrowserPoolStats :=
  { total_instances := st.instances.length
    healthy_instances := (st.instances.filter (fun i => i.status == .Healthy)).length
    busy_instances := (st.instances.filter (fun i => i.status == .Busy)).length
    failed_instances := (st.instances.filter (fun i => i.status == .Failed)).length
    available_instances := st.available.length
    total_screenshots := (st.instances.map (fun i => i.screenshot_count)).sum }

/-- The spec's lease claim as stated: a granted lease holds its pool-capacity
permit, so right after a successful `get_browser` the pool has one fewer
available permit than before, until the handle is dropped. -/
def claimC3Statement : Prop :=
  ∀ (restart_ok : Nat → Bool) (now : Nat) (st : PoolState)
    (instance_id : Nat) (st' : PoolState),
    get_browser restart_ok now st = (.leased instance_id, st') →
    st'.permits + 1 = st.permits

/-- src/utils.rs `MemoryMonitor`. -/
structure MemoryMonitor where
  max_memory : Nat
  current_usage : Nat
  alert_threshold : Nat
deriving DecidableEq

/-- src/utils.rs `MemoryMonitor::new`: `alert_threshold = (max_memory as f64
* 0.8) as usize`, i.e. the floor of 0.8 times the maximum; embedded as
`4 * m / 5` in Nat (exact for the sizes considered here, where the f64
product rounds to the same integer part). -/
def MemoryMonitor.new (max_memory : Nat) : MemoryMonitor :=
  { max_memory
    current_usage := 0
    alert_threshold := 4 * max_memory / 5 }

/-- src/utils.rs `MemoryMonitor::update_usage`. -/
def MemoryMonitor.update_usage (mm : MemoryMonitor) (usage : Nat) : MemoryMonitor :=
  { mm with current_usage := usage }

/-- src/utils.rs `MemoryMonitor::check_memory`: Critical when usage is
strictly above the maximum, Warning when strictly above the alert threshold,
Normal otherwise. -/
def MemoryMonitor.check_memory (mm : MemoryMonitor) : MemoryStatus :=
  if mm.max_memory < mm.current_usage then .Critical
  else if mm.alert_threshold < mm.current_usage then .Warning
  else .Normal

/-- The classification the claim states: Critical at or above 100% of the
maximum, Warning at or above 80%, Normal below (80% of m in exact
arithmetic: 4m ≤ 5u). -/
def claimC9Classifier (m u : Nat) : MemoryStatus :=
  if m ≤ u then .Critical
  else if 4 * m ≤ 5 * u then .Warning
  else .Normal

/-- The memory claim as stated: the monitor classifies per
`claimC9Classifier`. -/
def claimC9Statement : Prop :=
  ∀ m u : Nat,
    ((MemoryMonitor.new m).update_usage u).check_memory = claimC9Classifier m u

/-- All occurrences of character `a` replaced by an underscore:
`str::replace(a, "_")` for a one-character pattern. -/
def replaceCharWith (a : Char) (s : List Char) : List Char :=
  s.map (fun c => if c = a then '_' else c)

/-- All (non-overlapping, leftmost-first) occurrences of `pat` deleted:
`str::replace(pat, "")`. Fuel recursion (the callers pass the string's
length, which suffices since each step consumes at least one character). -/
def stripPat (pat : List Char) : Nat → List Char → List Char
  | 0, s => s
  | _, [] => []
  | fuel + 1, c :: rest =>
    if pat.isPrefixOf (c :: rest) then
      stripPat pat fuel ((c :: rest).drop pat.length)
    else c :: stripPat pat fuel rest

/-- The extension appended by src/cli.rs `generate_filename`. -/
def extensionChars : OutputFormat → List Char
  | .Png => "png".data
  | .Jpeg => "jpg".data
  | .Webp => "webp".data

/-- src/cli.rs `generate_filename` (lines 523-540): strip "https://" and
"http://", replace each of '/', '?', '&', '=', ':' with '_', then append a
dot and the format's extension. -/
def generate_filename (url : List Char) (format : OutputFormat) : List Char :=
  let s1 := stripPat "https://".data url.length url
  let s2 := stripPat "http://".data s1.length s1
  let s3 := replaceCharWith '/' s2
  let s4 := replaceCharWith '?' s3
  let s5 := replaceCharWith '&' s4
  let s6 := replaceCharWith '=' s5
  let s7 := replaceCharWith ':' s6
  s7 ++ '.' :: extensionChars format

/-- Characters the claim's regex forbids in the filename body: path
separators, Windows-forbidden characters and control characters. -/
def winForbidden (c : Char) : Bool :=
  c = '/' || c = '\\' || c = ':' || c = '*' || c = '?' || c = '"' ||
    c = '<' || c = '>' || c = '|' || c.toNat ≤ 31

/-- Nonempty body free of forbidden characters. -/
def bodyOk (b : List Char) : Bool :=
  !b.isEmpty && b.all (fun c => !winForbidden c)

/-- Whether a filename matches the claim's regex: a nonempty run of
non-forbidden characters, then a dot and one of the three extensions. -/
def claimC8Check (f : List Char) : Bool :=
  (f.drop (f.length - 4) == ".png".data && bodyOk (f.take (f.length - 4))) ||
    (f.drop (f.length - 4) == ".jpg".data && bodyOk (f.take (f.length - 4))) ||
    (f.drop (f.length - 5) == ".webp".data && bodyOk (f.take (f.length - 5)))

/-- The filename claim as stated: every generated filename matches the
regex. -/
def claimC8Statement : Prop :=
  ∀ (url : List Char) (format : OutputFormat),
    claimC8Check (generate_filename url format) = true

/-- A default-like configuration used for concrete instantiations
(src/config.rs `Config::default`, with Nat durations). -/
def sampleConfig : Config :=
  { browser_pool_size := 10
    max_concurrent_screenshots := 200
    screenshot_timeout := 30
    retry_attempts := 3
    output_format := .Png
    viewport :=
      { width := 1920, height := 1080, device_scale_factor := 1, mobile := false }
    optimization :=
      { block_ads := true
        block_trackers := true
        block_images := false
        enable_javascript := true
        wait_for_network_idle := false
        disable_css := false
        disable_plugins := true }
    chrome_path := none
    user_agent := none
    memory_limit := some 1073741824 }

/-- src/config.rs `RetryConfig::default` (Nat milliseconds; multiplier 2). -/
def sampleRetry : RetryConfig :=
  { max_attempts := 3, initial_delay := 100, max_delay := 10000, multiplier := 2 }

/-- A concrete request (the id a fixed string in place of a fresh UUID). -/
def sampleRequest : ScreenshotRequest :=
  { id := "r1"
    url := "https://example.com"
    priority := .Normal
    custom_viewport := none
    wait_time := none
    element_selector := none
    full_page := false
    retry_count := 0 }

/-- A retry config with two attempts, for concrete retry-loop runs. -/
def retryTwo : RetryConfig :=
  { max_attempts := 2, initial_delay := 100, max_delay := 10000, multiplier := 2 }

/-- An attempt oracle on which every capture fails with a retryable network
error. -/
def allNetworkErr : Nat → CaptureOutcome :=
  fun _ => .err (.NetworkError "connection reset")

/-- The constant clock: every attempt at instant 0. -/
def clock0 : Nat → Nat := fun _ => 0

/-- A breaker that is Open with a failure recorded at instant 100, threshold
5, cooldown 30: at instant 100 the cooldown has not elapsed, so it denies
execution. -/
def openBreaker : CircuitBreaker :=
  { state := .Open
    failure_threshold := 5
    recovery_timeout := 30
    failure_count := 5
    last_failure_time := some 100 }

/-- The clock for a denial run: every request's every attempt at instant
100. -/
def clock100 : Nat → Nat → Nat := fun _ _ => 100

/-- A per-request oracle wrapper around `allNetworkErr`. -/
def allNetworkErr2 : Nat → Nat → CaptureOutcome := fun _ => allNetworkErr

/-- The four requests of the spec's priority-ordering scenario:
[Low:A, Critical:B, Normal:C, High:D]. -/
def reqA : ScreenshotRequest := { sampleRequest with id := "A", priority := .Low }

/-- Critical request B of the ordering scenario. -/
def reqB : ScreenshotRequest := { sampleRequest with id := "B", priority := .Critical }

/-- Normal request C of the ordering scenario. -/
def reqC : ScreenshotRequest := { sampleRequest with id := "C", priority := .Normal }

/-- High request D of the ordering scenario. -/
def reqD : ScreenshotRequest := { sampleRequest with id := "D", priority := .High }

/-- A one-instance pool with one permit, its instance healthy and idle. -/
def samplePool : PoolState :=
  { instances := [BrowserInstanceM.new 0 0]
    available := [0]
    permits := 1
    shutting_down := false }

/-- The one instance of `samplePool` right after a lease at instant 5:
marked used once, Busy. -/
def sampleInstanceBusy : BrowserInstanceM :=
  { id := 0
    last_used := 5
    screenshot_count := 1
    status := .Busy
    created_at := 0
    failure_count := 0
    handler_finished := false }

/-- `samplePool` right after `get_browser` at instant 5: the instance Busy,
the available-queue empty, and — the bug under test — the permit already
back. -/
def samplePoolLeased : PoolState :=
  { instances := [sampleInstanceBusy]
    available := []
    permits := 1
    shutting_down := false }

/-- `can_execute` never changes the counter or the threshold, and only ever
moves Open to HalfOpen. -/
theorem CircuitBreaker.can_execute_frame (cb : CircuitBreaker) (t : Nat) :
    (cb.can_execute t).2.failure_threshold = cb.failure_threshold ∧
      (cb.can_execute t).2.failure_count = cb.failure_count ∧
      ((cb.can_execute t).2.state = .Open ∨ (cb.can_execute t).2.state = .HalfOpen →
        cb.state = .Open ∨ cb.state = .HalfOpen) := by
  obtain ⟨st, fth, rto, fc, lft⟩ := cb
  rcases st with _ | _ | _
  · exact ⟨rfl, rfl, fun h => h⟩
  · rcases lft with _ | t0
    · exact ⟨rfl, rfl, fun h => h⟩
    · by_cases hlt : rto < t - t0
      · refine ⟨?_, ?_, ?_⟩ <;> simp [CircuitBreaker.can_execute, hlt]
      · refine ⟨?_, ?_, ?_⟩ <;> simp [CircuitBreaker.can_execute, hlt]
  · exact ⟨rfl, rfl, fun h => h⟩

theorem CircuitBreaker.reachable_inv {F D : Nat} {cb : CircuitBreaker}
    (h : CircuitBreaker.Reachable F D cb) :
    cb.failure_threshold = F ∧
      ((cb.state = .Open ∨ cb.state = .HalfOpen) → F ≤ cb.failure_count) := by
  induction h with
  | new => simp [CircuitBreaker.new]
  | @can_execute t cb0 h ih =>
    obtain ⟨hF, hcnt⟩ := ih
    obtain ⟨hfth, hfc, hstate⟩ := CircuitBreaker.can_execute_frame cb0 t
    refine ⟨by rw [hfth, hF], fun hor => ?_⟩
    rw [hfc]
    exact hcnt (hstate hor)
  | @record_success cb0 h ih =>
    simp [CircuitBreaker.record_success, ih.1]
  | @record_failure t cb0 h ih =>
    obtain ⟨hF, hcnt⟩ := ih
    obtain ⟨st, fth, rto, fc, lft⟩ := cb0
    have hF2 : fth = F := hF
    by_cases hth : fth ≤ fc + 1
    · refine ⟨hF, fun hstate => ?_⟩
      show F ≤ fc + 1
      omega
    · refine ⟨hF, fun hstate => ?_⟩
      show F ≤ fc + 1
      have hst : st = .Open ∨ st = .HalfOpen := by
        simpa [CircuitBreaker.record_failure, hth] using hstate
      have h2 : F ≤ fc := hcnt hst
      omega

/-- C4: the circuit breaker's three-state contract. `can_execute` returns
true in Closed and HalfOpen (leaving the state alone); in Open it returns
true, moving to HalfOpen, exactly when the cooldown has elapsed since the
recorded last failure, and false otherwise. `record_failure` increments the
counter, stamps the failure time, and the breaker is Open afterwards exactly
when the new count reaches the threshold or it was already Open; in any
reachable HalfOpen state one failure reopens the breaker. `record_success`
resets the counter to 0, the state to Closed, and clears the failure time. -/
theorem c4_circuit_breaker_contract :
    ∀ (cb : CircuitBreaker) (now : Nat),
      (cb.state = .Closed → cb.can_execute now = (true, cb)) ∧
      (cb.state = .HalfOpen → cb.can_execute now = (true, cb)) ∧
      (cb.state = .Open →
        ((cb.can_execute now).1 = true ↔
          ∃ t, cb.last_failure_time = some t ∧ cb.recovery_timeout < now - t)) ∧
      (cb.state = .Open → (cb.can_execute now).1 = true →
        (cb.can_execute now).2.state = .HalfOpen) ∧
      (cb.record_failure now).failure_count = cb.failure_count + 1 ∧
      (cb.record_failure now).last_failure_time = some now ∧
      ((cb.record_failure now).state = .Open ↔
        cb.failure_threshold ≤ cb.failure_count + 1 ∨ cb.state = .Open) ∧
      cb.record_success.failure_count = 0 ∧
      cb.record_success.state = .Closed ∧
      cb.record_success.last_failure_time = none ∧
      (∀ F D, CircuitBreaker.Reachable F D cb → cb.state = .HalfOpen →
        (cb.record_failure now).state = .Open) := by
  intro cb now
  refine ⟨?_, ?_, ?_, ?_, ?_, ?_, ?_, ?_, ?_, ?_, ?_⟩
  · intro h; simp [CircuitBreaker.can_execute, h]
  · intro h; simp [CircuitBreaker.can_execute, h]
  · intro h
    rcases hlf : cb.last_failure_time with _ | t0 <;>
      simp only [CircuitBreaker.can_execute, h, hlf]
    · simp
    · constructor
      · intro htrue
        split at htrue <;> simp_all
      · rintro ⟨t, ht, hlt⟩
        obtain rfl : t0 = t := by simpa using ht
        simp [hlt]
  · intro h htrue
    rcases hlf : cb.last_failure_time with _ | t0 <;>
      simp only [CircuitBreaker.can_execute, h, hlf] at htrue ⊢
    · simp at htrue
    · split at htrue <;> simp_all
  · simp [CircuitBreaker.record_failure]
  · simp [CircuitBreaker.record_failure]
  · simp only [CircuitBreaker.record_failure]
    split <;> rename_i hsplit
    · simp [hsplit]
    · constructor
      · intro h; exact Or.inr h
      · rintro (h | h)
        · omega
        · exact h
  · simp [CircuitBreaker.record_success]
  · simp [CircuitBreaker.record_success]
  · simp [CircuitBreaker.record_success]
  · intro F D hreach hhalf
    obtain ⟨hF, hcnt⟩ := CircuitBreaker.reachable_inv hreach
    have : F ≤ cb.failure_count := hcnt (Or.inr hhalf)
    simp only [CircuitBreaker.record_failure]
    have : cb.failure_threshold ≤ cb.failure_count + 1 := by omega
    simp [this]


/-- C1 (code evaluated at the failing input): the capture path's URL check
accepts `ftp://example.com` — the string parses, `is_valid_url` is true, so
`take_screenshot` does not fail with InvalidUrl and control reaches the
browser pool — while the repository's own `validate_url` utility rejects it
(and accepts https). InvalidUrl itself is classified non-retryable. -/
theorem c1_ftp_url_reaches_browser_phase :
    is_valid_url "ftp://example.com" = true ∧
      take_screenshot_url_gate "ftp://example.com" = .ok () ∧
      validate_url_ok "ftp://example.com" = false ∧
      validate_url_ok "https://example.com" = true ∧
      ScreenshotError.is_retryable (.InvalidUrl "ftp://example.com") = false :=
  ⟨rfl, rfl, rfl, rfl, rfl⟩

/-- C9 counterexample: at maximum 100 and usage 100 (exactly 100%), the code
reports Warning, not the Critical the claim states, because `check_memory`
compares with strict inequalities. -/
theorem c9_memory_claim_counterexample : ¬ claimC9Statement :=
  fun h => absurd (h 100 100) (by decide)

/-- C9 amended: `check_memory` reports Critical exactly when usage strictly
exceeds the maximum, Warning exactly when usage strictly exceeds the alert
threshold (the floor of 80% of the maximum) without exceeding the maximum,
and Normal exactly when usage is at most the alert threshold. -/
theorem c9_amended_memory_thresholds :
    ∀ m u : Nat,
      (((MemoryMonitor.new m).update_usage u).check_memory = .Critical ↔ m < u) ∧
      (((MemoryMonitor.new m).update_usage u).check_memory = .Warning ↔
        4 * m / 5 < u ∧ u ≤ m) ∧
      (((MemoryMonitor.new m).update_usage u).check_memory = .Normal ↔
        u ≤ 4 * m / 5) := by
  intro m u
  have hdiv : 4 * m / 5 ≤ m := by omega
  simp only [MemoryMonitor.new, MemoryMonitor.update_usage, MemoryMonitor.check_memory]
  split_ifs with h1 h2
  · refine ⟨?_, ?_, ?_⟩ <;> simp_all
    omega
  · refine ⟨?_, ?_, ?_⟩ <;> simp_all
  · refine ⟨?_, ?_, ?_⟩ <;> simp_all

/-- Characters survive `stripPat`: deletion introduces nothing. -/
theorem mem_stripPat {pat : List Char} :
    ∀ {fuel : Nat} {s : List Char} {c : Char}, c ∈ stripPat pat fuel s → c ∈ s := by
  intro fuel
  induction fuel with
  | zero =>
    intro s c h
    simp only [stripPat] at h
    exact h
  | succ fuel ih =>
    intro s c h
    cases s with
    | nil => simp [stripPat] at h
    | cons a rest =>
      simp only [stripPat] at h
      split at h
      · exact List.mem_of_mem_drop (ih h)
      · rcases List.mem_cons.mp h with h | h
        · exact h ▸ List.mem_cons_self a rest
        · exact List.mem_cons_of_mem a (ih h)

/-- The replaced character does not occur in the output (it is not the
underscore). -/
theorem replaceCharWith_not_mem {a : Char} (ha : a ≠ '_') (s : List Char) :
    a ∉ replaceCharWith a s := by
  intro h
  obtain ⟨d, _, hda⟩ := List.mem_map.mp h
  by_cases hd : d = a
  · rw [if_pos hd] at hda
    exact ha hda.symm
  · rw [if_neg hd] at hda
    exact hd hda

/-- A non-underscore character absent from the input stays absent after a
replacement (replacement only introduces underscores). -/
theorem replaceCharWith_preserve {b : Char} (hb : b ≠ '_') {s : List Char}
    (hbs : b ∉ s) (a : Char) : b ∉ replaceCharWith a s := by
  intro h
  obtain ⟨d, hd, hda⟩ := List.mem_map.mp h
  by_cases hda' : d = a
  · rw [if_pos hda'] at hda
    exact hb hda.symm
  · rw [if_neg hda'] at hda
    exact hbs (hda ▸ hd)

/-- No character of the five-stage replacement chain's output is one of the
five replaced characters. -/
theorem mem_fiveReplace {s0 : List Char} {c : Char}
    (hc : c ∈ replaceCharWith ':' (replaceCharWith '='
      (replaceCharWith '&' (replaceCharWith '?' (replaceCharWith '/' s0))))) :
    c ≠ '/' ∧ c ≠ '?' ∧ c ≠ '&' ∧ c ≠ '=' ∧ c ≠ ':' := by
  have h1 : '/' ∉ replaceCharWith '/' s0 :=
    replaceCharWith_not_mem (by decide) _
  have h1b : '/' ∉ replaceCharWith '?' (replaceCharWith '/' s0) :=
    replaceCharWith_preserve (by decide) h1 _
  have h1c : '/' ∉ replaceCharWith '&' (replaceCharWith '?' (replaceCharWith '/' s0)) :=
    replaceCharWith_preserve (by decide) h1b _
  have h1d : '/' ∉ replaceCharWith '=' (replaceCharWith '&' (replaceCharWith '?'
      (replaceCharWith '/' s0))) :=
    replaceCharWith_preserve (by decide) h1c _
  have h1e : '/' ∉ replaceCharWith ':' (replaceCharWith '=' (replaceCharWith '&'
      (replaceCharWith '?' (replaceCharWith '/' s0)))) :=
    replaceCharWith_preserve (by decide) h1d _
  have h2 : '?' ∉ replaceCharWith '?' (replaceCharWith '/' s0) :=
    replaceCharWith_not_mem (by decide) _
  have h2b : '?' ∉ replaceCharWith '&' (replaceCharWith '?' (replaceCharWith '/' s0)) :=
    replaceCharWith_preserve (by decide) h2 _
  have h2c : '?' ∉ replaceCharWith '=' (replaceCharWith '&' (replaceCharWith '?'
      (replaceCharWith '/' s0))) :=
    replaceCharWith_preserve (by decide) h2b _
  have h2d : '?' ∉ replaceCharWith ':' (replaceCharWith '=' (replaceCharWith '&'
      (replaceCharWith '?' (replaceCharWith '/' s0)))) :=
    replaceCharWith_preserve (by decide) h2c _
  have h3 : '&' ∉ replaceCharWith '&' (replaceCharWith '?' (replaceCharWith '/' s0)) :=
    replaceCharWith_not_mem (by decide) _
  have h3b : '&' ∉ replaceCharWith '=' (replaceCharWith '&' (replaceCharWith '?'
      (replaceCharWith '/' s0))) :=
    replaceCharWith_preserve (by decide) h3 _
  have h3c : '&' ∉ replaceCharWith ':' (replaceCharWith '=' (replaceCharWith '&'
      (replaceCharWith '?' (replaceCharWith '/' s0)))) :=
    replaceCharWith_preserve (by decide) h3b _
  have h4 : '=' ∉ replaceCharWith '=' (replaceCharWith '&' (replaceCharWith '?'
      (replaceCharWith '/' s0))) :=
    replaceCharWith_not_mem (by decide) _
  have h4b : '=' ∉ replaceCharWith ':' (replaceCharWith '=' (replaceCharWith '&'
      (replaceCharWith '?' (replaceCharWith '/' s0)))) :=
    replaceCharWith_preserve (by decide) h4 _
  have h5 : ':' ∉ replaceCharWith ':' (replaceCharWith '=' (replaceCharWith '&'
      (replaceCharWith '?' (replaceCharWith '/' s0)))) :=
    replaceCharWith_not_mem (by decide) _
  refine ⟨?_, ?_, ?_, ?_, ?_⟩ <;> rintro rfl
  · exact h1e hc
  · exact h2d hc
  · exact h3c hc
  · exact h4b hc
  · exact h5 hc

/-- C8 counterexample: the URL a*b yields the filename a*b.png, whose
asterisk the claim's regex forbids, so `generate_filename` output does not
always match the regex. -/
theorem c8_filename_regex_counterexample : ¬ claimC8Statement :=
  fun h => absurd (h "a*b".data .Png) (by decide)

/-- C8 amended: the generated filename is a body followed by a dot and the
format's extension, and the body contains none of the five characters the
code replaces ('/', '?', '&', '=', ':'); the body can be empty, and other
forbidden characters (backslash, asterisk, quotes, angle brackets, pipe,
control characters) pass through unchanged. -/
theorem c8_amended_filename_chars :
    ∀ (url : List Char) (format : OutputFormat),
      ∃ base,
        generate_filename url format = base ++ '.' :: extensionChars format ∧
          ∀ c ∈ base, c ≠ '/' ∧ c ≠ '?' ∧ c ≠ '&' ∧ c ≠ '=' ∧ c ≠ ':' := by
  intro url format
  refine ⟨replaceCharWith ':' (replaceCharWith '=' (replaceCharWith '&'
      (replaceCharWith '?' (replaceCharWith '/'
        (stripPat "http://".data
          (stripPat "https://".data url.length url).length
          (stripPat "https://".data url.length url)))))), rfl, ?_⟩
  intro c hc
  exact mem_fiveReplace hc

/-- Inserting adds one to the length. -/
theorem length_insertByPriority (r : ScreenshotRequest) :
    ∀ l : List ScreenshotRequest, (insertByPriority r l).length = l.length + 1 := by
  intro l
  induction l with
  | nil => rfl
  | cons a tl ih =>
    by_cases hc : priority_to_value a.priority ≤ priority_to_value r.priority
    · simp [insertByPriority, hc]
    · simp [insertByPriority, hc, ih]

/-- The sort is length-preserving. -/
theorem length_sortRequests (l : List ScreenshotRequest) :
    (sortRequests l).length = l.length := by
  induction l with
  | nil => rfl
  | cons a tl ih => simp [sortRequests, List.foldr] at ih ⊢; simp [length_insertByPriority, ih]

/-- Membership in an insertion. -/
theorem mem_insertByPriority {r x : ScreenshotRequest} :
    ∀ {l : List ScreenshotRequest}, x ∈ insertByPriority r l ↔ x = r ∨ x ∈ l := by
  intro l
  induction l with
  | nil => simp [insertByPriority]
  | cons a tl ih =>
    by_cases hc : priority_to_value a.priority ≤ priority_to_value r.priority
    · simp only [insertByPriority, if_pos hc, List.mem_cons]
    · simp only [insertByPriority, if_neg hc, List.mem_cons, ih]
      tauto

/-- Inserting into a list ordered by descending priority value keeps it
ordered. -/
theorem pairwise_insertByPriority {r : ScreenshotRequest} :
    ∀ {l : List ScreenshotRequest},
      l.Pairwise (fun a b => priority_to_value b.priority ≤ priority_to_value a.priority) →
      (insertByPriority r l).Pairwise
        (fun a b => priority_to_value b.priority ≤ priority_to_value a.priority) := by
  intro l
  induction l with
  | nil => intro _; simp [insertByPriority]
  | cons a tl ih =>
    intro h
    rw [List.pairwise_cons] at h
    obtain ⟨ha, htl⟩ := h
    by_cases hc : priority_to_value a.priority ≤ priority_to_value r.priority
    · simp only [insertByPriority, if_pos hc]
      rw [List.pairwise_cons]
      refine ⟨?_, ?_⟩
      · intro y hy
        rcases List.mem_cons.mp hy with rfl | hy
        · exact hc
        · exact le_trans (ha y hy) hc
      · rw [List.pairwise_cons]
        exact ⟨ha, htl⟩
    · simp only [insertByPriority, if_neg hc]
      rw [List.pairwise_cons]
      refine ⟨?_, ih htl⟩
      intro y hy
      rcases mem_insertByPriority.mp hy with rfl | hy
      · exact le_of_not_le hc
      · exact ha y hy

/-- Stability of the insertion: filtering by one priority commutes with the
insertion (two requests of equal priority are never reordered, since both
compare equal under the sort order). -/
theorem filter_insertByPriority (p : Priority) (r : ScreenshotRequest) :
    ∀ l : List ScreenshotRequest,
      (insertByPriority r l).filter (fun x => x.priority == p) =
        if r.priority == p then r :: l.filter (fun x => x.priority == p)
        else l.filter (fun x => x.priority == p) := by
  intro l
  induction l with
  | nil =>
    cases hr : (r.priority == p) <;>
      simp [insertByPriority, List.filter_cons, hr]
  | cons a tl ih =>
    by_cases hc : priority_to_value a.priority ≤ priority_to_value r.priority
    · cases hr : (r.priority == p) <;>
        simp [insertByPriority, if_pos hc, List.filter_cons, hr]
    · have hins : insertByPriority r (a :: tl) = a :: insertByPriority r tl := by
        simp [insertByPriority, hc]
      rw [hins, List.filter_cons, ih, List.filter_cons]
      cases hr : (r.priority == p) <;> cases hap : (a.priority == p) <;>
        simp [hr, hap]
      exfalso
      apply hc
      have h1 : r.priority = p := by simpa using hr
      have h2 : a.priority = p := by simpa using hap
      rw [h1, h2]

/-- C6: `process_requests` admits requests in stable descending-priority
order: the sorted list has the same length, is ordered by descending
priority value, filtering by any one priority preserves the submission
order and multiplicity of that priority class (stability), and the spec's
scenario [Low:A, Critical:B, Normal:C, High:D] starts in the order
B, D, C, A. -/
theorem c6_priority_sort_stable :
    (∀ requests : List ScreenshotRequest,
        (sortRequests requests).length = requests.length) ∧
      (∀ requests : List ScreenshotRequest,
        (sortRequests requests).Pairwise
          (fun a b => priority_to_value b.priority ≤ priority_to_value a.priority)) ∧
      (∀ (requests : List ScreenshotRequest) (p : Priority),
        (sortRequests requests).filter (fun r => r.priority == p) =
          requests.filter (fun r => r.priority == p)) ∧
      sortRequests [reqA, reqB, reqC, reqD] = [reqB, reqD, reqC, reqA] := by
  refine ⟨length_sortRequests, ?_, ?_, by decide⟩
  · intro requests
    induction requests with
    | nil => simp [sortRequests]
    | cons a tl ih =>
      have : sortRequests (a :: tl) = insertByPriority a (sortRequests tl) := rfl
      rw [this]
      exact pairwise_insertByPriority ih
  · intro requests p
    induction requests with
    | nil => rfl
    | cons a tl ih =>
      have : sortRequests (a :: tl) = insertByPriority a (sortRequests tl) := rfl
      rw [this, filter_insertByPriority, ih, List.filter_cons]

/-- The retry loop makes at most `fuel` capture attempts. -/
theorem retryLoop_count_le (config : Config) (request : ScreenshotRequest)
    (outcomes : Nat → CaptureOutcome) (times : Nat → Nat) :
    ∀ (fuel attempt : Nat) (cb : CircuitBreaker) (last : Option ScreenshotError),
      (retryLoop config request outcomes times fuel attempt cb last).2.2 ≤ fuel := by
  intro fuel
  induction fuel with
  | zero => intro attempt cb last; simp [retryLoop]
  | succ fuel ih =>
    intro attempt cb last
    simp only [retryLoop]
    split
    · simp
    · split
      · simp
      · rename_i x1 cbT heqT x2 err herr
        split
        · rename_i hretry
          have h := ih (attempt + 1) (cbT.record_failure (times attempt)) (some err)
          simpa using Nat.succ_le_succ h
        · simp

/-- The only error the retry loop ever returns (rather than packages) is
BrowserUnavailable, from a circuit-breaker denial. -/
theorem retryLoop_error_unavailable (config : Config) (request : ScreenshotRequest)
    (outcomes : Nat → CaptureOutcome) (times : Nat → Nat) :
    ∀ (fuel attempt : Nat) (cb : CircuitBreaker) (last : Option ScreenshotError)
      (e : ScreenshotError) (cb2 : CircuitBreaker) (n : Nat),
      retryLoop config request outcomes times fuel attempt cb last = (.error e, cb2, n) →
      e = .BrowserUnavailable := by
  intro fuel
  induction fuel with
  | zero =>
    intro attempt cb last e cb2 n h
    simp [retryLoop] at h
  | succ fuel ih =>
    intro attempt cb last e cb2 n h
    rcases hce : cb.can_execute (times attempt) with ⟨b, cb1⟩
    cases b
    · simp only [retryLoop, hce] at h
      simp at h
      exact h.1.symm
    · rcases ho : outcomes attempt with res | e0
      · simp only [retryLoop, hce, ho] at h
        simp at h
      · by_cases hcond : e0.is_retryable = true ∧ fuel ≠ 0
        · simp only [retryLoop, hce, ho, if_pos hcond] at h
          rcases hX : retryLoop config request outcomes times fuel (attempt + 1)
              (cb1.record_failure (times attempt)) (some e0) with ⟨r1, cb3, n3⟩
          rw [hX] at h
          simp at h
          obtain ⟨h1, h2, h3⟩ := h
          exact ih (attempt + 1) (cb1.record_failure (times attempt)) (some e0) e cb3 n3
            (by rw [hX, h1])
        · simp only [retryLoop, hce, ho, if_neg hcond] at h
          simp at h

/-- Once an attempt fails with a non-retryable error, the loop stops: the
attempt count is exactly that attempt's index plus one. -/
theorem retryLoop_nonretryable_stops (config : Config) (request : ScreenshotRequest)
    (outcomes : Nat → CaptureOutcome) (times : Nat → Nat) :
    ∀ (fuel attempt : Nat) (cb : CircuitBreaker) (last : Option ScreenshotError)
      (i : Nat) (e : ScreenshotError),
      i < (retryLoop config request outcomes times fuel attempt cb last).2.2 →
      outcomes (attempt + i) = .err e → e.is_retryable = false →
      (retryLoop config request outcomes times fuel attempt cb last).2.2 = i + 1 := by
  intro fuel
  induction fuel with
  | zero =>
    intro attempt cb last i e hi hout hret
    simp [retryLoop] at hi
  | succ fuel ih =>
    intro attempt cb last i e hi hout hret
    rcases hce : cb.can_execute (times attempt) with ⟨b, cb1⟩
    cases b
    · simp only [retryLoop, hce] at hi
      simp at hi
    · rcases ho : outcomes attempt with res | e0
      · simp only [retryLoop, hce, ho] at hi ⊢
        have hi0 : i = 0 := by omega
        subst hi0
        rw [Nat.add_zero, ho] at hout
      · by_cases hcond : e0.is_retryable = true ∧ fuel ≠ 0
        · simp only [retryLoop, hce, ho, if_pos hcond] at hi ⊢
          rcases i with _ | i2
          · rw [Nat.add_zero, ho] at hout
            obtain rfl : e0 = e := by simpa using hout
            rw [hret] at hcond
            simp at hcond
          · have hlt := Nat.lt_of_succ_lt_succ hi
            have harr : attempt + (i2 + 1) = attempt + 1 + i2 := by omega
            rw [harr] at hout
            have hres := ih (attempt + 1) (cb1.record_failure (times attempt)) (some e0)
              i2 e hlt hout hret
            rw [hres]
        · simp only [retryLoop, hce, ho, if_neg hcond] at hi ⊢
          omega

/-- Shape of a packaged terminal failure: when the loop returns Ok with
success=false (retry exhaustion), the result is exactly `failedResult` with
the last observed error, which is the error of the final attempt. -/
theorem retryLoop_failed_shape (config : Config) (request : ScreenshotRequest)
    (outcomes : Nat → CaptureOutcome) (times : Nat → Nat) :
    ∀ (fuel attempt : Nat) (cb : CircuitBreaker) (last : Option ScreenshotError)
      (r : ScreenshotResult) (cb2 : CircuitBreaker) (n : Nat),
      1 ≤ fuel →
      retryLoop config request outcomes times fuel attempt cb last = (.ok r, cb2, n) →
      r.success = false →
      1 ≤ n ∧ ∃ e, outcomes (attempt + (n - 1)) = .err e ∧
        r = failedResult config request (some e) := by
  intro fuel
  induction fuel with
  | zero =>
    intro attempt cb last r cb2 n hf
    omega
  | succ fuel ih =>
    intro attempt cb last r cb2 n hf h hsucc
    rcases hce : cb.can_execute (times attempt) with ⟨b, cb1⟩
    cases b
    · simp only [retryLoop, hce] at h
      simp at h
    · rcases ho : outcomes attempt with res | e0
      · simp only [retryLoop, hce, ho] at h
        simp at h
        obtain ⟨h1, h2, h3⟩ := h
        rw [← h1] at hsucc
        simp at hsucc
      · by_cases hcond : e0.is_retryable = true ∧ fuel ≠ 0
        · simp only [retryLoop, hce, ho, if_pos hcond] at h
          rcases hX : retryLoop config request outcomes times fuel (attempt + 1)
              (cb1.record_failure (times attempt)) (some e0) with ⟨r1, cb3, n3⟩
          rw [hX] at h
          simp at h
          obtain ⟨h1, h2, h3⟩ := h
          have hfuel1 : 1 ≤ fuel := Nat.one_le_iff_ne_zero.mpr hcond.2
          have hrec := ih (attempt + 1) (cb1.record_failure (times attempt)) (some e0)
            r cb3 n3 hfuel1 (by rw [hX, h1]) hsucc
          obtain ⟨hn3, e, he, hr⟩ := hrec
          refine ⟨by omega, e, ?_, hr⟩
          have harr : attempt + (n - 1) = attempt + 1 + (n3 - 1) := by omega
          rw [harr]
          exact he
        · simp only [retryLoop, hce, ho, if_neg hcond] at h
          simp at h
          obtain ⟨h1, h2, h3⟩ := h
          refine ⟨by omega, e0, ?_, h1.symm⟩
          have : attempt + (n - 1) = attempt := by omega
          rw [this]
          exact ho

/-- `runRequests` emits one task result per request. -/
theorem runRequests_length (config : Config) (retry : RetryConfig)
    (oracles : Nat → Nat → CaptureOutcome) (times : Nat → Nat → Nat) :
    ∀ (reqs : List ScreenshotRequest) (k : Nat) (cb : CircuitBreaker),
      (runRequests config retry oracles times reqs k cb).1.length = reqs.length := by
  intro reqs
  induction reqs with
  | nil => intro k cb; rfl
  | cons a tl ih =>
    intro k cb
    simp only [runRequests]
    simp [ih]

/-- A successful collect has as many results as inputs. -/
theorem collectResults_ok_length :
    ∀ (outs : List (Except ScreenshotError ScreenshotResult)) (rs : List ScreenshotResult),
      collectResults outs = .ok rs → rs.length = outs.length := by
  intro outs
  induction outs with
  | nil =>
    intro rs h
    simp [collectResults] at h
    simp [← h]
  | cons a tl ih =>
    intro rs h
    cases a with
    | error e => simp [collectResults] at h
    | ok r =>
      simp only [collectResults] at h
      rcases hC : collectResults tl with e2 | rs2 <;> rw [hC] at h
      · simp at h
      · simp at h
        rw [← h]
        simp [ih rs2 hC]

/-- C5: per request, the retry loop makes at most `max_attempts` capture
attempts; once an attempt fails with an error whose is_retryable() is false,
no further attempt is made (the count stops at that attempt); and an error
is retryable exactly when it is BrowserUnavailable, UrlLoadFailed,
NetworkError, Timeout, PageError or BrowserProcessDied — every other kind,
including CaptureFailed, InvalidUrl, BrowserLaunchFailed,
MemoryLimitExceeded, ConfigurationError, IoError, SerializationError and
ElementNotFound, is never retried. -/
theorem c5_retry_bound_and_classification :
    (∀ (config : Config) (retry : RetryConfig) (request : ScreenshotRequest)
        (outcomes : Nat → CaptureOutcome) (times : Nat → Nat) (cb : CircuitBreaker),
        (take_screenshot_with_retry config retry request outcomes times cb).2.2 ≤
          retry.max_attempts) ∧
      (∀ (config : Config) (retry : RetryConfig) (request : ScreenshotRequest)
          (outcomes : Nat → CaptureOutcome) (times : Nat → Nat) (cb : CircuitBreaker)
          (i : Nat) (e : ScreenshotError),
        i < (take_screenshot_with_retry config retry request outcomes times cb).2.2 →
        outcomes i = .err e → e.is_retryable = false →
        (take_screenshot_with_retry config retry request outcomes times cb).2.2 = i + 1) ∧
      (∀ e : ScreenshotError, e.is_retryable = true ↔
        (e = .BrowserUnavailable ∨ (∃ s, e = .UrlLoadFailed s) ∨
          (∃ s, e = .NetworkError s) ∨ (∃ d, e = .Timeout d) ∨
          (∃ s, e = .PageError s) ∨ (∃ s, e = .BrowserProcessDied s))) := by
  refine ⟨?_, ?_, ?_⟩
  · intro config retry request outcomes times cb
    exact retryLoop_count_le config request outcomes times retry.max_attempts 0 cb none
  · intro config retry request outcomes times cb i e hi hout hret
    exact retryLoop_nonretryable_stops config request outcomes times retry.max_attempts 0
      cb none i e hi (by rw [Nat.zero_add]; exact hout) hret
  · intro e
    cases e <;> simp [ScreenshotError.is_retryable]

/-- C7: a request whose retry loop exhausts without success yields a Result
with success=false, empty data, the configured output format, zero duration,
metadata carrying the configured viewport and browser_instance_id 0, and the
error field holding the last error observed (the final attempt's error). -/
theorem c7_exhausted_result_fields
    (config : Config) (retry : RetryConfig) (request : ScreenshotRequest)
    (outcomes : Nat → CaptureOutcome) (times : Nat → Nat) (cb : CircuitBreaker)
    (r : ScreenshotResult) (cb2 : CircuitBreaker) (n : Nat)
    (hmax : 1 ≤ retry.max_attempts)
    (hrun : take_screenshot_with_retry config retry request outcomes times cb =
      (.ok r, cb2, n))
    (hfail : r.success = false) :
    r.data = [] ∧ r.format = config.output_format ∧ r.duration = 0 ∧
      r.metadata.viewport = config.viewport ∧ r.metadata.browser_instance_id = 0 ∧
      1 ≤ n ∧ ∃ e, outcomes (n - 1) = .err e ∧ r.error = some e := by
  obtain ⟨hn, e, he, hr⟩ := retryLoop_failed_shape config request outcomes times
    retry.max_attempts 0 cb none r cb2 n hmax hrun hfail
  subst hr
  refine ⟨rfl, rfl, rfl, rfl, rfl, hn, e, ?_, rfl⟩
  rw [Nat.zero_add] at he
  exact he

/-- C7 witness: two attempts, both failing with a retryable NetworkError
against a fresh breaker, exhaust the loop; the packaged Result has the
stated fields. -/
theorem c7_exhausted_result_fields_witness :
    (failedResult sampleConfig sampleRequest
        (some (.NetworkError "connection reset"))).data = [] ∧
      (failedResult sampleConfig sampleRequest
        (some (.NetworkError "connection reset"))).format =
          sampleConfig.output_format ∧
      (failedResult sampleConfig sampleRequest
        (some (.NetworkError "connection reset"))).duration = 0 ∧
      (failedResult sampleConfig sampleRequest
        (some (.NetworkError "connection reset"))).metadata.viewport =
          sampleConfig.viewport ∧
      (failedResult sampleConfig sampleRequest
        (some (.NetworkError "connection reset"))).metadata.browser_instance_id = 0 ∧
      1 ≤ 2 ∧ ∃ e, allNetworkErr (2 - 1) = .err e ∧
        (failedResult sampleConfig sampleRequest
          (some (.NetworkError "connection reset"))).error = some e :=
  c7_exhausted_result_fields sampleConfig retryTwo sampleRequest allNetworkErr clock0
    (CircuitBreaker.new 5 30)
    (failedResult sampleConfig sampleRequest (some (.NetworkError "connection reset")))
    { state := .Closed, failure_threshold := 5, recovery_timeout := 30,
      failure_count := 2, last_failure_time := some 0 } 2
    (by decide) rfl rfl

/-- C2 counterexample: with the circuit breaker Open inside its cooldown, a
one-request batch makes `take_screenshot_with_retry` return
Err(BrowserUnavailable), which `process_requests` propagates as a thrown
error — no per-request Result with success=false is produced, refuting the
claim that every input yields exactly one Result per request. -/
theorem c2_thrown_error_counterexample : ¬ claimC2Statement := by
  intro h
  obtain ⟨rs, hok, hlen⟩ :=
    h sampleConfig sampleRetry allNetworkErr2 clock100 [sampleRequest] openBreaker
  have herr : (process_requests sampleConfig sampleRetry allNetworkErr2 clock100
      [sampleRequest] openBreaker).1 = .error .BrowserUnavailable := rfl
  rw [herr] at hok
  exact Except.noConfusion hok

/-- C2 amended: whenever `process_requests` does return Ok, it returns
exactly one Result per request (and packaged failures inside carry
success=false, per the companion theorems); but the circuit-breaker denial
path returns Err — the only error `take_screenshot_with_retry` ever throws
is BrowserUnavailable — and `process_requests` propagates that Err to the
caller instead of packaging it, so in that case no Results are returned. -/
theorem c2_amended_results_and_denial :
    (∀ (config : Config) (retry : RetryConfig)
        (oracles : Nat → Nat → CaptureOutcome) (times : Nat → Nat → Nat)
        (requests : List ScreenshotRequest) (cb : CircuitBreaker)
        (rs : List ScreenshotResult) (cb2 : CircuitBreaker),
        process_requests config retry oracles times requests cb = (.ok rs, cb2) →
        rs.length = requests.length) ∧
      (∀ (config : Config) (retry : RetryConfig) (request : ScreenshotRequest)
          (outcomes : Nat → CaptureOutcome) (times : Nat → Nat) (cb : CircuitBreaker)
          (e : ScreenshotError) (cb2 : CircuitBreaker) (n : Nat),
        take_screenshot_with_retry config retry request outcomes times cb =
          (.error e, cb2, n) →
        e = .BrowserUnavailable) := by
  constructor
  · intro config retry oracles times requests cb rs cb2 h
    have h1 : collectResults
        (runRequests config retry oracles times (sortRequests requests) 0 cb).1 =
          .ok rs := congrArg Prod.fst h
    have h2 := collectResults_ok_length _ rs h1
    have h3 := runRequests_length config retry oracles times (sortRequests requests) 0 cb
    have h4 := length_sortRequests requests
    omega
  · intro config retry request outcomes times cb e cb2 n h
    exact retryLoop_error_unavailable config request outcomes times retry.max_attempts 0
      cb none e cb2 n h

/-- Replacing one element changes the screenshot-count sum by the
difference between the old and the new element's count. -/
theorem sum_count_set :
    ∀ (l : List BrowserInstanceM) (i : Nat) (inst v : BrowserInstanceM),
      l[i]? = some inst →
      ((l.set i v).map (fun x => x.screenshot_count)).sum + inst.screenshot_count =
        (l.map (fun x => x.screenshot_count)).sum + v.screenshot_count := by
  intro l
  induction l with
  | nil => intro i inst v h; simp at h
  | cons a tl ih =>
    intro i inst v h
    cases i with
    | zero =>
      simp only [List.getElem?_cons_zero, Option.some.injEq] at h
      subst h
      show ((v :: tl).map (fun x => x.screenshot_count)).sum + a.screenshot_count =
        ((a :: tl).map (fun x => x.screenshot_count)).sum + v.screenshot_count
      simp only [List.map_cons, List.sum_cons]
      omega
    | succ i2 =>
      simp only [List.getElem?_cons_succ] at h
      have h3 := ih i2 inst v h
      show ((a :: tl.set i2 v).map (fun x => x.screenshot_count)).sum +
          inst.screenshot_count =
        ((a :: tl).map (fun x => x.screenshot_count)).sum + v.screenshot_count
      simp only [List.map_cons, List.sum_cons]
      omega

/-- `get_browser` on the healthy fast path: pops the head of the
available-queue, marks that instance used, and — because the `_permit`
local is dropped when the function returns — hands the permit back
immediately (`permits - 1 + 1`), before the lease is ever dropped. -/
theorem get_browser_healthy (restart_ok : Nat → Bool) (now : Nat)
    (insts : List BrowserInstanceM) (instance_id : Nat) (avail_rest : List Nat)
    (permits : Nat) (inst : BrowserInstanceM)
    (hget : insts[instance_id]? = some inst)
    (hstat : inst.status = .Healthy) (hhand : inst.handler_finished = false)
    (hperm : permits ≠ 0) :
    get_browser restart_ok now
        { instances := insts, available := instance_id :: avail_rest,
          permits := permits, shutting_down := false } =
      (.leased instance_id,
        { instances := insts.set instance_id (inst.mark_used now),
          available := avail_rest, permits := permits - 1 + 1,
          shutting_down := false }) := by
  simp [get_browser, getBrowserLoop, BrowserInstanceM.is_healthy, hget, hstat, hhand,
    hperm]

/-- C10: leasing a healthy instance marks it used right at acquisition —
before any capture is attempted — incrementing its screenshot_count,
refreshing last_used and setting status Busy, and bumping the pool's
cumulative screenshot statistic by one; releasing the lease (which is all
that happens whether the capture later succeeds, fails or times out) never
changes the statistic. Hence get_stats counts leases, not successful
screenshots; the concrete one-instance pool shows the count at 1 after a
lease and still 1 after the handle is dropped with no capture recorded. -/
theorem c10_lease_counts_captures_not_successes :
    (∀ (st : PoolState) (now : Nat) (restart_ok : Nat → Bool)
        (instance_id : Nat) (avail_rest : List Nat) (inst : BrowserInstanceM),
        st.available = instance_id :: avail_rest →
        st.instances[instance_id]? = some inst →
        inst.status = .Healthy → inst.handler_finished = false →
        st.shutting_down = false → 1 ≤ st.permits →
        get_browser restart_ok now st =
          (.leased instance_id,
            { instances := st.instances.set instance_id (inst.mark_used now),
              available := avail_rest, permits := st.permits - 1 + 1,
              shutting_down := false }) ∧
          (get_stats (get_browser restart_ok now st).2).total_screenshots =
            (get_stats st).total_screenshots + 1 ∧
          (inst.mark_used now).screenshot_count = inst.screenshot_count + 1 ∧
          (inst.mark_used now).status = .Busy ∧
          (inst.mark_used now).last_used = now) ∧
      (∀ (st : PoolState) (instance_id : Nat),
        (get_stats (return_browser st instance_id)).total_screenshots =
          (get_stats st).total_screenshots) ∧
      (get_stats (get_browser (fun _ => false) 7 samplePool).2).total_screenshots =
        (get_stats samplePool).total_screenshots + 1 ∧
      (get_stats
          (return_browser (get_browser (fun _ => false) 7 samplePool).2 0)).total_screenshots =
        (get_stats samplePool).total_screenshots + 1 := by
  refine ⟨?_, ?_, rfl, rfl⟩
  · intro st now restart_ok instance_id avail_rest inst hav hget hstat hhand hsd hperm
    obtain ⟨insts, avail, permits, sd⟩ := st
    have hav2 : avail = instance_id :: avail_rest := hav
    have hget2 : insts[instance_id]? = some inst := hget
    have hsd2 : sd = false := hsd
    have hperm2 : permits ≠ 0 := by
      have h3 : 1 ≤ permits := hperm
      omega
    subst hav2
    subst hsd2
    have hmain := get_browser_healthy restart_ok now insts instance_id avail_rest
      permits inst hget2 hstat hhand hperm2
    refine ⟨hmain, ?_, rfl, rfl, rfl⟩
    rw [hmain]
    simp only [get_stats]
    have hsum := sum_count_set insts instance_id inst (inst.mark_used now) hget2
    have hmu : (inst.mark_used now).screenshot_count = inst.screenshot_count + 1 := rfl
    omega
  · intro st instance_id
    rcases hget : st.instances[instance_id]? with _ | inst
    · simp [return_browser, hget]
    · simp only [return_browser, hget]
      simp only [get_stats]
      have hsum := sum_count_set st.instances instance_id inst inst.mark_available hget
      have hma : inst.mark_available.screenshot_count = inst.screenshot_count := rfl
      omega

/-- C3 (code evaluated at the failing input): on a one-instance pool with
one permit, `get_browser` succeeds and the pool's available permit count is
back at its full value the moment the call returns — while the lease is
still outstanding — because the `_permit` guard is a local of `get_browser`
and the returned BrowserHandle does not hold it; dropping the handle then
only marks the instance Healthy and pushes its id to the tail of the
available-queue, releasing no permit. This refutes the claim that the
permit is held for the lease's lifetime and released at drop. -/
theorem c3_permit_released_before_lease_drop :
    (get_browser (fun _ => false) 5 samplePool).1 = .leased 0 ∧
      ((get_browser (fun _ => false) 5 samplePool).2).permits = samplePool.permits ∧
      (return_browser (get_browser (fun _ => false) 5 samplePool).2 0).permits =
        samplePool.permits ∧
      (return_browser (get_browser (fun _ => false) 5 samplePool).2 0).instances =
        [{ id := 0, last_used := 5, screenshot_count := 1, status := .Healthy,
           created_at := 0, failure_count := 0, handler_finished := false }] ∧
      (return_browser (get_browser (fun _ => false) 5 samplePool).2 0).available = [0] ∧
      ¬ claimC3Statement := by
  refine ⟨rfl, rfl, rfl, rfl, rfl, ?_⟩
  intro h
  have h2 := h (fun _ => false) 5 samplePool 0 samplePoolLeased rfl
  exact absurd h2 (by decide)

end ScreenshotTool
